import Mathlib

/-!
Verification of the NDT end-to-end client wrapper.

This file shallowly embeds the Python sources of the repository:
  * client_wrapper/client_wrapper.py
      (TestError, NdtResult, NdtHtml5SeleniumDriver with perform_test,
       record_test_in_progress_values, populate_metric_values,
       check_result_metrics, test_indiv_metric_is_valid, set_test_browser)
  * client_wrapper/browser_client_common.py (create_browser, load_url)
  * the NdtClientHTTPServer async_start behaviour exercised by
    tests/test_ndt_client_http_server.py (the server module itself is not
    part of the available sources, so it is modelled from the spec).

The selenium driver is treated as an external collaborator: a run is
parameterised by a DriverEnv that fixes the outcome of every interaction
with the browser (whether the page loads, whether each element lookup
succeeds, whether each bounded visibility wait completes before its
timeout, and the text of each metric element).  Wall-clock time is a
monotone natural-number counter: each call of datetime.now yields the
current counter value and advances it.  Python exceptions are explicit
values of type PyExc; an operation that raises returns the exception
together with the state mutations already performed (Python mutations on
the result dictionary persist across a raised exception).
-/

/-- A Python value stored in a metric slot of the result dictionary:
either None or a string (the `.text` of a page element). -/
inductive PyVal
  | vNone
  | vStr (s : String)
  deriving DecidableEq

/-- Python exceptions that the embedded code can raise or catch. -/
inductive PyExc
  | webDriverError (msg : String)
  | timeoutError
  | noSuchElementError
  | indexError
  | keyError
  | typeError
  | valueError
  | attributeError
  | socketError (msg : String)
  deriving DecidableEq

/-- `TestError` from client_wrapper.py: a timestamped error message.
Timestamps are values of the monotone clock. -/
structure TestError where
  timestamp : Nat
  message : String
  deriving DecidableEq

/-- The `_result_values` dictionary of NdtHtml5SeleniumDriver.  The three
metric slots are `Option PyVal`: `none` means the key is absent from the
dictionary (as after `__init__`), `some v` means the key is present and
holds the Python value `v`. -/
structure ResultValues where
  start_time : Option Nat
  end_time : Option Nat
  c2s_start_time : Option Nat
  s2c_start_time : Option Nat
  errors : List TestError
  latency : Option PyVal
  c2s_throughput : Option PyVal
  s2c_throughput : Option PyVal
  deriving DecidableEq

/-- The dictionary as initialised by `NdtHtml5SeleniumDriver.__init__`:
the four timestamps are None, `errors` is empty, and the metric keys are
absent. -/
def initResultValues : ResultValues :=
  ⟨none, none, none, none, [], none, none, none⟩

/-- `NdtResult` from client_wrapper.py. -/
structure NdtResult where
  start_time : Option Nat
  end_time : Option Nat
  c2s_start_time : Option Nat
  s2c_start_time : Option Nat
  errors : List TestError
  latency : Option PyVal
  c2s_throughput : Option PyVal
  s2c_throughput : Option PyVal
  deriving DecidableEq

/-- `NdtResult(**self._result_values)`: building the result record from
the dictionary (absent metric keys fall back to the constructor default
None, which `Option` already captures). -/
def NdtResult.ofValues (st : ResultValues) : NdtResult :=
  ⟨st.start_time, st.end_time, st.c2s_start_time, st.s2c_start_time,
   st.errors, st.latency, st.c2s_throughput, st.s2c_throughput⟩

/-! ### Python float() semantics

`float(x)` on a string accepts an optionally signed decimal literal with
optional fractional part and exponent, or the special words inf, infinity
and nan (case-insensitive), surrounded by optional whitespace; any other
string raises ValueError.  `float(None)` raises TypeError. -/

/-- One or more ASCII digits and nothing else. -/
def digitsNonempty (cs : List Char) : Bool :=
  !cs.isEmpty && cs.all Char.isDigit

/-- An optional sign followed by one or more digits (exponent body). -/
def signedDigits : List Char → Bool
  | '+' :: rest => digitsNonempty rest
  | '-' :: rest => digitsNonempty rest
  | cs => digitsNonempty cs

/-- An optional exponent suffix: empty, or e/E followed by signed digits. -/
def expPart : List Char → Bool
  | [] => true
  | 'e' :: rest => signedDigits rest
  | 'E' :: rest => signedDigits rest
  | _ => false

/-- Digits with an optional fractional part, then an optional exponent:
`123`, `1.`, `.5`, `1.25e-3`, ... -/
def mantissaExp (cs : List Char) : Bool :=
  let intPart := cs.takeWhile Char.isDigit
  let rest := cs.dropWhile Char.isDigit
  match rest with
  | '.' :: rest2 =>
    let frac := rest2.takeWhile Char.isDigit
    let rest3 := rest2.dropWhile Char.isDigit
    (!intPart.isEmpty || !frac.isEmpty) && expPart rest3
  | _ => !intPart.isEmpty && expPart rest

/-- The special float words inf, infinity, nan (case-insensitive). -/
def specialWord (cs : List Char) : Bool :=
  let l := cs.map Char.toLower
  l = ['i', 'n', 'f'] ||
    l = ['i', 'n', 'f', 'i', 'n', 'i', 't', 'y'] ||
    l = ['n', 'a', 'n']

/-- An unsigned float literal body. -/
def unsignedFloat (cs : List Char) : Bool :=
  specialWord cs || mantissaExp cs

/-- A float literal body with an optional leading sign. -/
def signedFloat : List Char → Bool
  | '+' :: rest => unsignedFloat rest
  | '-' :: rest => unsignedFloat rest
  | cs => unsignedFloat cs

/-- Python whitespace stripped by `float` from both ends of its string
argument. -/
def isPySpace (c : Char) : Bool :=
  c = ' ' || c = '\t' || c = '\n' || c = '\r' || c = '\x0b' || c = '\x0c'

/-- Strip leading and trailing whitespace. -/
def stripChars (cs : List Char) : List Char :=
  ((cs.dropWhile isPySpace).reverse.dropWhile isPySpace).reverse

/-- Whether `float(s)` succeeds on the string `s`. -/
def pyFloatParses (s : String) : Bool :=
  signedFloat (stripChars s.toList)

/-- The outcome of `float(v)` on a stored metric value: a string parses
or raises ValueError; None raises TypeError. -/
def floatConv : PyVal → Except PyExc Unit
  | .vNone => .error .typeError
  | .vStr s => if pyFloatParses s then .ok () else .error .valueError

/-- Python `str(v)` for the values a metric slot can hold. -/
def pyStr : PyVal → String
  | .vNone => "None"
  | .vStr s => s

/-! ### Browser selection -/

/-- The selenium webdriver vendor classes. -/
inductive Browser
  | firefox
  | chrome
  | edge
  | safari
  deriving DecidableEq

/-- Modelled from the spec: the `names` module (not among the available
sources) defines the supported browser identifiers `firefox`, `chrome`,
`edge`, `safari`. -/
def names.FIREFOX : String := "firefox"

/-- Modelled from the spec: browser identifier for Chrome. -/
def names.CHROME : String := "chrome"

/-- Modelled from the spec: browser identifier for Edge. -/
def names.EDGE : String := "edge"

/-- Modelled from the spec: browser identifier for Safari. -/
def names.SAFARI : String := "safari"

/-- `create_browser` from browser_client_common.py: dispatch on the four
supported identifiers, raising ValueError on anything else. -/
def create_browser (browser : String) : Except PyExc Browser :=
  if browser = names.FIREFOX then .ok .firefox
  else if browser = names.CHROME then .ok .chrome
  else if browser = names.EDGE then .ok .edge
  else if browser = names.SAFARI then .ok .safari
  else .error .valueError

/-- `set_test_browser` from client_wrapper.py: returns a Firefox driver
for the identifier firefox, and falls off the end of the function (Python
None) for every other identifier. -/
def set_test_browser (browser : String) : Option Browser :=
  if browser = "firefox" then some Browser.firefox else none

/-! ### load_url (browser_client_common.py) -/

/-- The error record appended by `load_url`; `results.TestError` is
constructed there with a single message argument (the `results` module is
not among the available sources, so the record is modelled from that
call site: a message-only error). -/
structure BccTestError where
  message : String
  deriving DecidableEq

/-- `ERROR_FAILED_TO_LOAD_URL_FORMAT % url` from browser_client_common.py. -/
def ERROR_FAILED_TO_LOAD_URL_FORMAT (url : String) : String :=
  "Failed to load URL: " ++ url

/-- `load_url` from browser_client_common.py: `loadExc` is the outcome of
`driver.get(url)` (`none` = success, `some msg` = WebDriverException).
Returns the success flag and the updated error list. -/
def load_url (loadExc : Option String) (url : String)
    (errors : List BccTestError) : Bool × List BccTestError :=
  match loadExc with
  | some _ => (false, errors ++ [⟨ERROR_FAILED_TO_LOAD_URL_FORMAT url⟩])
  | none => (true, errors)

/-! ### The selenium driver as an external collaborator -/

/-- The behaviour of the browser/driver during one run: the outcome of
`driver.get` (none = loads, some msg = WebDriverException msg), whether
each element lookup in the page succeeds, whether each bounded
visibility wait completes before its timeout, and the text of the three
metric elements on the results page. -/
structure DriverEnv where
  loadExc : Option String
  wsButtonFound : Bool
  startButtonFound : Bool
  uploadTextFound : Bool
  uploadVisible : Bool
  downloadTextFound : Bool
  downloadVisible : Bool
  resultsTextFound : Bool
  resultsVisible : Bool
  upSpeedFound : Bool
  downSpeedFound : Bool
  latencyElemFound : Bool
  c2sText : String
  s2cText : String
  latencyText : String
  deriving DecidableEq

/-- Observable events of a run, in program order. -/
inductive Event
  | evGetUrl
  | evClickWebsocket
  | evClickStart
  | evSetStartTime (t : Nat)
  | evWaitUpload
  | evSetC2sStartTime (t : Nat)
  | evWaitDownload
  | evSetS2cStartTime (t : Nat)
  | evWaitResults
  | evSetEndTime (t : Nat)
  | evAppendError (t : Nat) (msg : String)
  | evClose
  deriving DecidableEq

/-- Result of one embedded statement block: the dictionary state after
all mutations performed so far (mutations persist even when an exception
is raised), the advanced clock, the emitted events, and the raised
exception if the block did not run to completion. -/
structure StepOut where
  st : ResultValues
  clock : Nat
  trace : List Event
  exc : Option PyExc
  deriving DecidableEq

/-- `record_test_in_progress_values` from client_wrapper.py: wait for
the upload-phase text, record `c2s_start_time`; wait for the
download-phase text, record `s2c_start_time`; wait for the results
element, record `end_time`.  A `find_elements_by_xpath(...)[0]` on an
absent element raises IndexError, `find_element_by_id` on an absent
element raises NoSuchElementException, and a wait whose element never
becomes visible within the timeout raises TimeoutException. -/
def record_test_in_progress_values (env : DriverEnv) (st : ResultValues)
    (clock : Nat) : StepOut :=
  if !env.uploadTextFound then ⟨st, clock, [], some .indexError⟩
  else if !env.uploadVisible then
    ⟨st, clock, [.evWaitUpload], some .timeoutError⟩
  else
    let t1 := clock
    let st1 := { st with c2s_start_time := some t1 }
    let tr1 : List Event := [.evWaitUpload, .evSetC2sStartTime t1]
    if !env.downloadTextFound then ⟨st1, t1 + 1, tr1, some .indexError⟩
    else if !env.downloadVisible then
      ⟨st1, t1 + 1, tr1 ++ [.evWaitDownload], some .timeoutError⟩
    else
      let t2 := t1 + 1
      let st2 := { st1 with s2c_start_time := some t2 }
      let tr2 := tr1 ++ [.evWaitDownload, .evSetS2cStartTime t2]
      if !env.resultsTextFound then
        ⟨st2, t2 + 1, tr2, some .noSuchElementError⟩
      else if !env.resultsVisible then
        ⟨st2, t2 + 1, tr2 ++ [.evWaitResults], some .timeoutError⟩
      else
        let t3 := t2 + 1
        ⟨{ st2 with end_time := some t3 }, t3 + 1,
         tr2 ++ [.evWaitResults, .evSetEndTime t3], none⟩

/-- `populate_metric_values` from client_wrapper.py: store the text of
the upload-speed, download-speed and latency elements into the
dictionary, in that order. -/
def populate_metric_values (env : DriverEnv) (st : ResultValues)
    (clock : Nat) : StepOut :=
  if !env.upSpeedFound then ⟨st, clock, [], some .noSuchElementError⟩
  else
    let st1 := { st with c2s_throughput := some (.vStr env.c2sText) }
    if !env.downSpeedFound then ⟨st1, clock, [], some .noSuchElementError⟩
    else
      let st2 := { st1 with s2c_throughput := some (.vStr env.s2cText) }
      if !env.latencyElemFound then ⟨st2, clock, [], some .noSuchElementError⟩
      else ⟨{ st2 with latency := some (.vStr env.latencyText) }, clock, [], none⟩

/-- The three metric keys validated by `check_result_metrics`. -/
inductive Metric
  | latency
  | s2c_throughput
  | c2s_throughput
  deriving DecidableEq

/-- The dictionary key of a metric, as used in error messages. -/
def metricName : Metric → String
  | .latency => "latency"
  | .s2c_throughput => "s2c_throughput"
  | .c2s_throughput => "c2s_throughput"

/-- `self._result_values[metric]`: `none` when the key is absent. -/
def ResultValues.getMetric (st : ResultValues) : Metric → Option PyVal
  | .latency => st.latency
  | .s2c_throughput => st.s2c_throughput
  | .c2s_throughput => st.c2s_throughput

/-- `test_indiv_metric_is_valid` from client_wrapper.py: look the metric
up in the dictionary (KeyError when absent), apply `float` to it, and on
ValueError — the only exception caught — append a TestError naming the
metric and its value.  `float(None)` raises TypeError, which the except
clause does not cover and which therefore propagates. -/
def test_indiv_metric_is_valid (metric : Metric) (st : ResultValues)
    (clock : Nat) : StepOut :=
  match st.getMetric metric with
  | none => ⟨st, clock, [], some .keyError⟩
  | some v =>
    match floatConv v with
    | .ok _ => ⟨st, clock, [], none⟩
    | .error .valueError =>
      let msg := "illegal value shown for " ++ metricName metric ++ ": " ++ pyStr v
      ⟨{ st with errors := st.errors ++ [⟨clock, msg⟩] }, clock + 1,
       [.evAppendError clock msg], none⟩
    | .error e => ⟨st, clock, [], some e⟩

/-- `check_result_metrics` from client_wrapper.py: validate latency, then
s2c_throughput, then c2s_throughput; an uncaught exception from one
validation aborts the remaining ones. -/
def check_result_metrics (st : ResultValues) (clock : Nat) : StepOut :=
  let r1 := test_indiv_metric_is_valid .latency st clock
  match r1.exc with
  | some _ => r1
  | none =>
    let r2 := test_indiv_metric_is_valid .s2c_throughput r1.st r1.clock
    match r2.exc with
    | some _ => { r2 with trace := r1.trace ++ r2.trace }
    | none =>
      let r3 := test_indiv_metric_is_valid .c2s_throughput r2.st r2.clock
      { r3 with trace := r1.trace ++ r2.trace ++ r3.trace }

/-- The exact WebDriverException message that `perform_test` recognises
as a malformed-URL load failure. -/
def malformedUrlMsg : String := "Target URL invalid_url is not well-formed."

/-- The message recorded when a phase wait times out. -/
def timeoutMsg : String := "Test did not complete within timeout period."

/-- Outcome of a whole `perform_test` call: the returned NdtResult or the
propagated exception, the final dictionary state, clock, event trace, and
whether `driver.close()` was called. -/
structure PerformOut where
  result : Except PyExc NdtResult
  st : ResultValues
  clock : Nat
  trace : List Event
  closed : Bool

/-- The part of `perform_test` after `driver.get`: click the websocket
button and the start button, record `start_time`, run the in-progress
waits and metric extraction inside the try whose except catches only
TimeoutException, then validate metrics, close the browser and return
the result. -/
def performAfterLoad (env : DriverEnv) (st : ResultValues) (clock : Nat)
    (tr : List Event) : PerformOut :=
  if !env.wsButtonFound then ⟨.error .noSuchElementError, st, clock, tr, false⟩
  else if !env.startButtonFound then
    ⟨.error .indexError, st, clock, tr ++ [.evClickWebsocket], false⟩
  else
    let t0 := clock
    let st1 := { st with start_time := some t0 }
    let tr1 := tr ++ [.evClickWebsocket, .evClickStart, .evSetStartTime t0]
    let r := record_test_in_progress_values env st1 (t0 + 1)
    match r.exc with
    | some .timeoutError =>
      let st2 := { r.st with errors := r.st.errors ++ [⟨r.clock, timeoutMsg⟩] }
      ⟨.ok (NdtResult.ofValues st2), st2, r.clock + 1,
       tr1 ++ r.trace ++ [.evAppendError r.clock timeoutMsg, .evClose], true⟩
    | some e => ⟨.error e, r.st, r.clock, tr1 ++ r.trace, false⟩
    | none =>
      let p := populate_metric_values env r.st r.clock
      match p.exc with
      | some .timeoutError =>
        let st2 := { p.st with errors := p.st.errors ++ [⟨p.clock, timeoutMsg⟩] }
        ⟨.ok (NdtResult.ofValues st2), st2, p.clock + 1,
         tr1 ++ r.trace ++ p.trace ++ [.evAppendError p.clock timeoutMsg, .evClose],
         true⟩
      | some e => ⟨.error e, p.st, p.clock, tr1 ++ r.trace ++ p.trace, false⟩
      | none =>
        let cr := check_result_metrics p.st p.clock
        match cr.exc with
        | some e =>
          ⟨.error e, cr.st, cr.clock, tr1 ++ r.trace ++ p.trace ++ cr.trace, false⟩
        | none =>
          ⟨.ok (NdtResult.ofValues cr.st), cr.st, cr.clock,
           tr1 ++ r.trace ++ p.trace ++ cr.trace ++ [.evClose], true⟩

/-- `perform_test` from client_wrapper.py, over the driver behaviour
`env` and the object state `st` left by `__init__` (url and timeout_time
are carried for fidelity; the timeout budget is reflected in the
environment's visibility outcomes).  A non-firefox browser makes
`set_test_browser` return None, so `driver.get` raises AttributeError.
A WebDriverException from `driver.get` is caught, but handled only when
its message is the malformed-URL message — any other message is
swallowed and the run continues. -/
def perform_test (env : DriverEnv) (st : ResultValues) (clock : Nat)
    (url : String) (browser : String) (timeout_time : Nat) : PerformOut :=
  match set_test_browser browser with
  | none => ⟨.error .attributeError, st, clock, [], false⟩
  | some _ =>
    match env.loadExc with
    | some msg =>
      if msg = malformedUrlMsg then
        let st1 := { st with errors := st.errors ++ [⟨clock, msg⟩] }
        ⟨.ok (NdtResult.ofValues st1), st1, clock + 1,
         [.evGetUrl, .evAppendError clock msg, .evClose], true⟩
      else performAfterLoad env st clock [.evGetUrl]
    | none => performAfterLoad env st clock [.evGetUrl]

/-- Whether a run returned a result (rather than propagating an
exception). -/
def isOkResult : Except PyExc NdtResult → Bool
  | .ok _ => true
  | .error _ => false

/-! ### NdtClientHTTPServer (modelled from the spec)

The module ndt_client_http_server is not among the available sources;
only its unit tests are.  Its async_start behaviour is modelled from the
spec: binding happens synchronously inside async_start, a bind failure
propagates to the caller as a raised error, and on success the `port`
attribute holds the bound socket's port. -/

/-- Modelled from the spec: the NDT client HTTP server handle — client
files path, `port` (valid only after a successful async_start) and
whether the background serve loop is running. -/
structure NdtClientHTTPServer where
  client_path : String
  port : Option Nat
  running : Bool
  deriving DecidableEq

/-- Modelled from the spec: a freshly constructed server — no port bound
yet, not running. -/
def NdtClientHTTPServer.init (client_path : String) : NdtClientHTTPServer :=
  ⟨client_path, none, false⟩

/-- The outcome of constructing the underlying HTTPServer bound to
`('', 0)`: either a raised socket error, or the ephemeral port reported
by `socket.getsockname()`. -/
structure HTTPServerCtorEnv where
  outcome : Except PyExc Nat

/-- Modelled from the spec: `async_start` binds the underlying server
socket synchronously; a bind failure is raised to the caller and leaves
the handle untouched (port never becomes valid); on success the port is
recorded and the serve loop starts in the background. -/
def async_start (env : HTTPServerCtorEnv) (s : NdtClientHTTPServer) :
    Except PyExc NdtClientHTTPServer :=
  match env.outcome with
  | .error e => .error e
  | .ok p => .ok { s with port := some p, running := true }

/-! ### Trace predicates for the phase ordering -/

/-- Whether an event records `c2s_start_time`. -/
def isSetC2s : Event → Bool
  | .evSetC2sStartTime _ => true
  | _ => false

/-- Whether an event records `s2c_start_time`. -/
def isSetS2c : Event → Bool
  | .evSetS2cStartTime _ => true
  | _ => false

/-- Whether an event records `end_time`. -/
def isSetEnd : Event → Bool
  | .evSetEndTime _ => true
  | _ => false

/-- Scans a trace left to right carrying whether `c2s_start_time` and
`s2c_start_time` have been recorded yet; the wait for the download-phase
element may only occur after `c2s_start_time` is recorded, and the wait
for the results element only after `s2c_start_time` is recorded. -/
def phaseWaitsOrdered : Bool → Bool → List Event → Bool
  | _, _, [] => true
  | _, s, Event.evSetC2sStartTime _ :: tl => phaseWaitsOrdered true s tl
  | c, _, Event.evSetS2cStartTime _ :: tl => phaseWaitsOrdered c true tl
  | c, s, Event.evWaitDownload :: tl => c && phaseWaitsOrdered c s tl
  | c, s, Event.evWaitResults :: tl => s && phaseWaitsOrdered c s tl
  | c, s, _ :: tl => phaseWaitsOrdered c s tl

/-! ### Sample driver environments for concrete runs -/

/-- A run in which every browser interaction succeeds and every metric
text is numeric. -/
def envAllGood : DriverEnv :=
  ⟨none, true, true, true, true, true, true, true, true, true, true, true,
   "120.5", "95.2", "23.0"⟩

/-- A run in which the download-phase element never becomes visible
within the timeout. -/
def envDownloadTimeout : DriverEnv :=
  { envAllGood with downloadVisible := false }

/-- A run in which `driver.get` raises a WebDriverException whose message
is not the malformed-URL message. -/
def envOtherLoadError : DriverEnv :=
  { envAllGood with loadExc := some "Connection refused" }

/-- A run in which `driver.get` raises the malformed-URL
WebDriverException. -/
def envMalformedUrl : DriverEnv :=
  { envAllGood with loadExc := some malformedUrlMsg }

/-- A run in which the latency text is not numeric but both throughput
texts are. -/
def envBadLatency : DriverEnv :=
  { envAllGood with latencyText := "abc" }

/-- A result dictionary holding a non-numeric latency text and numeric
throughput texts. -/
def stBadLatency : ResultValues :=
  { initResultValues with
    latency := some (PyVal.vStr "abc")
    s2c_throughput := some (PyVal.vStr "95.2")
    c2s_throughput := some (PyVal.vStr "120.5") }

/-! ### Claim theorems -/

/-- C5 (code evidence): `create_browser` returns the vendor class for
each of the four supported identifiers and raises ValueError on any
other, but `set_test_browser` — the selector `perform_test` actually
calls — returns a browser instance only for firefox and falls through to
None for chrome, edge, safari and unsupported identifiers alike,
contradicting its own docstring. -/
theorem C5_browser_selection :
    create_browser "firefox" = Except.ok Browser.firefox ∧
    create_browser "chrome" = Except.ok Browser.chrome ∧
    create_browser "edge" = Except.ok Browser.edge ∧
    create_browser "safari" = Except.ok Browser.safari ∧
    create_browser "opera" = Except.error PyExc.valueError ∧
    set_test_browser "firefox" = some Browser.firefox ∧
    set_test_browser "chrome" = none ∧
    set_test_browser "edge" = none ∧
    set_test_browser "safari" = none ∧
    set_test_browser "opera" = none :=
  ⟨rfl, rfl, rfl, rfl, rfl, rfl, rfl, rfl, rfl, rfl⟩

/-- C8: if the underlying bind raises during async_start, the error
propagates synchronously to the caller and the server handle (whose port
starts out invalid) is never updated; on a successful async_start the
port attribute equals the bound socket's port. -/
theorem C8_async_start_bind (env : HTTPServerCtorEnv) (path : String)
    (e : PyExc) (p : Nat) :
    ((env.outcome = Except.error e →
        async_start env (NdtClientHTTPServer.init path) = Except.error e) ∧
      (env.outcome = Except.ok p →
        async_start env (NdtClientHTTPServer.init path) =
          Except.ok ⟨path, some p, true⟩)) ∧
    (NdtClientHTTPServer.init path).port = none := by
  constructor
  · constructor
    · intro h
      simp [async_start, h]
    · intro h
      simp [async_start, h, NdtClientHTTPServer.init]
  · rfl

/-- Witness for C8: the bind failure and bound-port scenarios of the unit
tests, at concrete inputs. -/
theorem C8_async_start_bind_witness :
    async_start ⟨Except.error (PyExc.socketError "Mock socket error.")⟩
        (NdtClientHTTPServer.init "mock/client/path") =
      Except.error (PyExc.socketError "Mock socket error.") ∧
    async_start ⟨Except.ok 8888⟩ (NdtClientHTTPServer.init "mock/client/path") =
      Except.ok ⟨"mock/client/path", some 8888, true⟩ :=
  ⟨(C8_async_start_bind ⟨Except.error (PyExc.socketError "Mock socket error.")⟩
      "mock/client/path" (PyExc.socketError "Mock socket error.") 0).1.1 rfl,
   (C8_async_start_bind ⟨Except.ok 8888⟩ "mock/client/path"
      PyExc.typeError 8888).1.2 rfl⟩

/-- C10: metric validation catches only ValueError; when the stored
metric value is None, `float(None)` raises TypeError, which propagates
uncaught and leaves the dictionary — in particular its errors list —
untouched. -/
theorem C10_unset_metric_typeerror (st : ResultValues) (clock : Nat)
    (m : Metric) (h : st.getMetric m = some PyVal.vNone) :
    (test_indiv_metric_is_valid m st clock).exc = some PyExc.typeError ∧
    (test_indiv_metric_is_valid m st clock).st = st := by
  simp [test_indiv_metric_is_valid, h, floatConv]

/-- Witness for C10: a dictionary whose latency value is None. -/
theorem C10_unset_metric_typeerror_witness :
    (test_indiv_metric_is_valid Metric.latency
        { initResultValues with latency := some PyVal.vNone } 0).exc =
      some PyExc.typeError ∧
    (test_indiv_metric_is_valid Metric.latency
        { initResultValues with latency := some PyVal.vNone } 0).st =
      { initResultValues with latency := some PyVal.vNone } :=
  C10_unset_metric_typeerror _ 0 Metric.latency rfl

/-- record_test_in_progress_values never touches the errors list. -/
theorem record_errors_eq (env : DriverEnv) (st : ResultValues) (clock : Nat) :
    (record_test_in_progress_values env st clock).st.errors = st.errors := by
  unfold record_test_in_progress_values
  repeat' split
  all_goals rfl

/-- populate_metric_values never touches the errors list. -/
theorem populate_errors_eq (env : DriverEnv) (st : ResultValues) (clock : Nat) :
    (populate_metric_values env st clock).st.errors = st.errors := by
  unfold populate_metric_values
  repeat' split
  all_goals rfl

/-- test_indiv_metric_is_valid only ever appends to the errors list. -/
theorem indiv_errors_extend (m : Metric) (st : ResultValues) (clock : Nat) :
    ∃ tl, (test_indiv_metric_is_valid m st clock).st.errors = st.errors ++ tl := by
  unfold test_indiv_metric_is_valid
  repeat' split
  all_goals first
    | exact ⟨[], (List.append_nil _).symm⟩
    | exact ⟨_, rfl⟩

/-- check_result_metrics only ever appends to the errors list. -/
theorem check_errors_extend (st : ResultValues) (clock : Nat) :
    ∃ tl, (check_result_metrics st clock).st.errors = st.errors ++ tl := by
  obtain ⟨t1, h1⟩ := indiv_errors_extend Metric.latency st clock
  obtain ⟨t2, h2⟩ := indiv_errors_extend Metric.s2c_throughput
    (test_indiv_metric_is_valid Metric.latency st clock).st
    (test_indiv_metric_is_valid Metric.latency st clock).clock
  obtain ⟨t3, h3⟩ := indiv_errors_extend Metric.c2s_throughput
    (test_indiv_metric_is_valid Metric.s2c_throughput
      (test_indiv_metric_is_valid Metric.latency st clock).st
      (test_indiv_metric_is_valid Metric.latency st clock).clock).st
    (test_indiv_metric_is_valid Metric.s2c_throughput
      (test_indiv_metric_is_valid Metric.latency st clock).st
      (test_indiv_metric_is_valid Metric.latency st clock).clock).clock
  simp only [check_result_metrics]
  split
  · exact ⟨t1, h1⟩
  · split
    · refine ⟨t1 ++ t2, ?_⟩
      dsimp only
      rw [h2, h1, List.append_assoc]
    · refine ⟨t1 ++ (t2 ++ t3), ?_⟩
      dsimp only
      rw [h3, h2, h1, List.append_assoc, List.append_assoc]

/-- check_result_metrics appends to the error list of any state whose
errors agree with a reference state. -/
theorem check_errors_extend2 (st0 st1 : ResultValues) (c : Nat)
    (h : st1.errors = st0.errors) :
    ∃ tl, (check_result_metrics st1 c).st.errors = st0.errors ++ tl := by
  obtain ⟨t, ht⟩ := check_errors_extend st1 c
  exact ⟨t, by rw [ht, h]⟩

/-- The post-navigation part of perform_test only ever appends to the
errors list. -/
theorem performAfterLoad_errors_extend (env : DriverEnv) (st : ResultValues)
    (clock : Nat) (tr : List Event) :
    ∃ tl, (performAfterLoad env st clock tr).st.errors = st.errors ++ tl := by
  simp only [performAfterLoad]
  repeat' split
  all_goals dsimp only
  all_goals try simp only [record_errors_eq, populate_errors_eq]
  all_goals first
    | exact ⟨[], (List.append_nil _).symm⟩
    | exact ⟨_, rfl⟩
    | exact check_errors_extend2 st _ _ (by simp [record_errors_eq, populate_errors_eq])

/-- The post-navigation part of perform_test closes the browser exactly
on the paths that return a result. -/
theorem performAfterLoad_closed_eq (env : DriverEnv) (st : ResultValues)
    (clock : Nat) (tr : List Event) :
    (performAfterLoad env st clock tr).closed =
      isOkResult (performAfterLoad env st clock tr).result := by
  simp only [performAfterLoad]
  repeat' split
  all_goals rfl

/-- C1: in every run of perform_test in which the URL loads, each phase
wait completes within its timeout and all three extracted metric texts
are numeric, the returned NdtResult has
start_time <= c2s_start_time <= s2c_start_time <= end_time, an empty
errors list, and latency, c2s_throughput and s2c_throughput each parse
as valid floating-point numbers. -/
theorem C1_successful_run (env : DriverEnv) (clock : Nat) (url : String)
    (timeout_time : Nat)
    (hload : env.loadExc = none)
    (hws : env.wsButtonFound = true) (hsb : env.startButtonFound = true)
    (hutf : env.uploadTextFound = true) (huv : env.uploadVisible = true)
    (hdtf : env.downloadTextFound = true) (hdv : env.downloadVisible = true)
    (hrtf : env.resultsTextFound = true) (hrv : env.resultsVisible = true)
    (husf : env.upSpeedFound = true) (hdsf : env.downSpeedFound = true)
    (hlef : env.latencyElemFound = true)
    (hla : pyFloatParses env.latencyText = true)
    (hs2 : pyFloatParses env.s2cText = true)
    (hc2 : pyFloatParses env.c2sText = true) :
    ∃ r, (perform_test env initResultValues clock url "firefox" timeout_time).result =
        Except.ok r ∧
      r.errors = [] ∧
      (∃ t0 t1 t2 t3, r.start_time = some t0 ∧ r.c2s_start_time = some t1 ∧
        r.s2c_start_time = some t2 ∧ r.end_time = some t3 ∧
        t0 ≤ t1 ∧ t1 ≤ t2 ∧ t2 ≤ t3) ∧
      r.latency = some (PyVal.vStr env.latencyText) ∧
      r.c2s_throughput = some (PyVal.vStr env.c2sText) ∧
      r.s2c_throughput = some (PyVal.vStr env.s2cText) ∧
      floatConv (PyVal.vStr env.latencyText) = Except.ok () ∧
      floatConv (PyVal.vStr env.c2sText) = Except.ok () ∧
      floatConv (PyVal.vStr env.s2cText) = Except.ok () := by
  obtain ⟨le, ws, sb, utf, uv, dtf, dv, rtf, rv, usf, dsf, lef, ct, s2t, lt⟩ := env
  simp only at hload hws hsb hutf huv hdtf hdv hrtf hrv husf hdsf hlef hla hs2 hc2
  subst hload hws hsb hutf huv hdtf hdv hrtf hrv husf hdsf hlef
  refine ⟨⟨some clock, some (clock + 3), some (clock + 1), some (clock + 2), [],
    some (PyVal.vStr lt), some (PyVal.vStr ct), some (PyVal.vStr s2t)⟩, ?_, rfl,
    ⟨clock, clock + 1, clock + 2, clock + 3, rfl, rfl, rfl, rfl,
      by omega, by omega, by omega⟩, rfl, rfl, rfl, ?_, ?_, ?_⟩ <;>
    simp [perform_test, set_test_browser, performAfterLoad,
      record_test_in_progress_values, populate_metric_values,
      check_result_metrics, test_indiv_metric_is_valid, ResultValues.getMetric,
      floatConv, hla, hs2, hc2, NdtResult.ofValues, initResultValues]

/-- Witness for C1: the all-good environment at clock 0. -/
theorem C1_successful_run_witness :
    ∃ r, (perform_test envAllGood initResultValues 0 "http://x" "firefox" 20).result =
        Except.ok r ∧
      r.errors = [] ∧
      (∃ t0 t1 t2 t3, r.start_time = some t0 ∧ r.c2s_start_time = some t1 ∧
        r.s2c_start_time = some t2 ∧ r.end_time = some t3 ∧
        t0 ≤ t1 ∧ t1 ≤ t2 ∧ t2 ≤ t3) ∧
      r.latency = some (PyVal.vStr envAllGood.latencyText) ∧
      r.c2s_throughput = some (PyVal.vStr envAllGood.c2sText) ∧
      r.s2c_throughput = some (PyVal.vStr envAllGood.s2cText) ∧
      floatConv (PyVal.vStr envAllGood.latencyText) = Except.ok () ∧
      floatConv (PyVal.vStr envAllGood.c2sText) = Except.ok () ∧
      floatConv (PyVal.vStr envAllGood.s2cText) = Except.ok () :=
  C1_successful_run envAllGood 0 "http://x" 20 rfl rfl rfl rfl rfl rfl rfl rfl
    rfl rfl rfl rfl (by decide) (by decide) (by decide)

/-- C2: in every run in which a phase wait exceeds its timeout — the
upload wait, the download wait or the results wait — perform_test
appends the timeout TestError, closes the browser and returns the
partially populated NdtResult instead of raising; the errors list of the
returned result is exactly the one timeout entry, and in the
download-timeout case s2c_start_time and end_time are unset. -/
theorem C2_phase_wait_timeout (env : DriverEnv) (clock : Nat) (url : String)
    (timeout_time : Nat)
    (hload : env.loadExc = none)
    (hws : env.wsButtonFound = true) (hsb : env.startButtonFound = true)
    (h : (env.uploadTextFound = true ∧ env.uploadVisible = false) ∨
         (env.uploadTextFound = true ∧ env.uploadVisible = true ∧
          env.downloadTextFound = true ∧ env.downloadVisible = false) ∨
         (env.uploadTextFound = true ∧ env.uploadVisible = true ∧
          env.downloadTextFound = true ∧ env.downloadVisible = true ∧
          env.resultsTextFound = true ∧ env.resultsVisible = false)) :
    ∃ r, (perform_test env initResultValues clock url "firefox" timeout_time).result =
        Except.ok r ∧
      (∃ t, r.errors = [⟨t, timeoutMsg⟩]) ∧
      (perform_test env initResultValues clock url "firefox" timeout_time).closed =
        true ∧
      (env.uploadVisible = true → env.downloadVisible = false →
        r.s2c_start_time = none ∧ r.end_time = none) := by
  obtain ⟨le, ws, sb, utf, uv, dtf, dv, rtf, rv, usf, dsf, lef, ct, s2t, lt⟩ := env
  simp only at hload hws hsb h
  subst hload hws hsb
  rcases h with ⟨h1, h2⟩ | ⟨h1, h2, h3, h4⟩ | ⟨h1, h2, h3, h4, h5, h6⟩
  · subst h1 h2
    refine ⟨⟨some clock, none, none, none, [⟨clock + 1, timeoutMsg⟩],
      none, none, none⟩, ?_, ⟨clock + 1, rfl⟩, ?_, by simp⟩ <;>
      simp [perform_test, set_test_browser, performAfterLoad,
        record_test_in_progress_values, NdtResult.ofValues, initResultValues]
  · subst h1 h2 h3 h4
    refine ⟨⟨some clock, none, some (clock + 1), none, [⟨clock + 2, timeoutMsg⟩],
      none, none, none⟩, ?_, ⟨clock + 2, rfl⟩, ?_, fun _ _ => ⟨rfl, rfl⟩⟩ <;>
      simp [perform_test, set_test_browser, performAfterLoad,
        record_test_in_progress_values, NdtResult.ofValues, initResultValues]
  · subst h1 h2 h3 h4 h5 h6
    refine ⟨⟨some clock, none, some (clock + 1), some (clock + 2),
      [⟨clock + 3, timeoutMsg⟩], none, none, none⟩, ?_, ⟨clock + 3, rfl⟩, ?_,
      by simp⟩ <;>
      simp [perform_test, set_test_browser, performAfterLoad,
        record_test_in_progress_values, NdtResult.ofValues, initResultValues]

/-- Witness for C2: the download-timeout environment at clock 0. -/
theorem C2_phase_wait_timeout_witness :
    ∃ r, (perform_test envDownloadTimeout initResultValues 0 "http://x" "firefox"
          20).result = Except.ok r ∧
      (∃ t, r.errors = [⟨t, timeoutMsg⟩]) ∧
      (perform_test envDownloadTimeout initResultValues 0 "http://x" "firefox"
          20).closed = true ∧
      (envDownloadTimeout.uploadVisible = true →
        envDownloadTimeout.downloadVisible = false →
        r.s2c_start_time = none ∧ r.end_time = none) :=
  C2_phase_wait_timeout envDownloadTimeout 0 "http://x" 20 rfl rfl rfl
    (Or.inr (Or.inl ⟨rfl, rfl, rfl, rfl⟩))

/-- C3: for each of latency, s2c_throughput and c2s_throughput (validated
in that order), a raw text that does not parse as a number produces one
appended TestError naming the metric and its raw value, and validation of
the remaining metrics continues; the state keeps all timestamps and
metric values, so the final NdtResult is built from everything
accumulated. -/
theorem C3_metric_validation_continues (st : ResultValues) (clock : Nat)
    (a b d : String)
    (hl : st.latency = some (PyVal.vStr a))
    (hs : st.s2c_throughput = some (PyVal.vStr b))
    (hc : st.c2s_throughput = some (PyVal.vStr d)) :
    (check_result_metrics st clock).exc = none ∧
    (check_result_metrics st clock).st.errors.map TestError.message =
      st.errors.map TestError.message ++
        ((if pyFloatParses a then [] else ["illegal value shown for latency: " ++ a]) ++
         (if pyFloatParses b then [] else ["illegal value shown for s2c_throughput: " ++ b]) ++
         (if pyFloatParses d then [] else ["illegal value shown for c2s_throughput: " ++ d])) ∧
    (check_result_metrics st clock).st.latency = st.latency ∧
    (check_result_metrics st clock).st.s2c_throughput = st.s2c_throughput ∧
    (check_result_metrics st clock).st.c2s_throughput = st.c2s_throughput ∧
    (check_result_metrics st clock).st.start_time = st.start_time ∧
    (check_result_metrics st clock).st.end_time = st.end_time ∧
    (check_result_metrics st clock).st.c2s_start_time = st.c2s_start_time ∧
    (check_result_metrics st clock).st.s2c_start_time = st.s2c_start_time := by
  cases hpa : pyFloatParses a <;> cases hpb : pyFloatParses b <;>
    cases hpd : pyFloatParses d <;>
    simp [check_result_metrics, test_indiv_metric_is_valid,
      ResultValues.getMetric, hl, hs, hc, floatConv, hpa, hpb, hpd, pyStr,
      metricName]

/-- Witness for C3: non-numeric latency with numeric throughputs yields
exactly the latency validation error. -/
theorem C3_metric_validation_continues_witness :
    (check_result_metrics stBadLatency 0).exc = none ∧
    (check_result_metrics stBadLatency 0).st.errors.map TestError.message =
      stBadLatency.errors.map TestError.message ++
        ((if pyFloatParses "abc" then []
          else ["illegal value shown for latency: " ++ "abc"]) ++
         (if pyFloatParses "95.2" then []
          else ["illegal value shown for s2c_throughput: " ++ "95.2"]) ++
         (if pyFloatParses "120.5" then []
          else ["illegal value shown for c2s_throughput: " ++ "120.5"])) ∧
    (check_result_metrics stBadLatency 0).st.latency = stBadLatency.latency ∧
    (check_result_metrics stBadLatency 0).st.s2c_throughput =
      stBadLatency.s2c_throughput ∧
    (check_result_metrics stBadLatency 0).st.c2s_throughput =
      stBadLatency.c2s_throughput ∧
    (check_result_metrics stBadLatency 0).st.start_time =
      stBadLatency.start_time ∧
    (check_result_metrics stBadLatency 0).st.end_time = stBadLatency.end_time ∧
    (check_result_metrics stBadLatency 0).st.c2s_start_time =
      stBadLatency.c2s_start_time ∧
    (check_result_metrics stBadLatency 0).st.s2c_start_time =
      stBadLatency.s2c_start_time :=
  C3_metric_validation_continues stBadLatency 0 "abc" "95.2" "120.5" rfl rfl rfl

/-- C4 counterexample: a WebDriverException from driver.get whose message
is not the malformed-URL message is swallowed by perform_test — no
TestError is recorded and the run does not terminate early (it proceeds
to completion, here recording end_time). -/
theorem C4_counterexample :
    envOtherLoadError.loadExc = some "Connection refused" ∧
    (perform_test envOtherLoadError initResultValues 0 "http://x" "firefox"
        20).st.errors = [] ∧
    isOkResult
      (perform_test envOtherLoadError initResultValues 0 "http://x" "firefox"
          20).result = true ∧
    (perform_test envOtherLoadError initResultValues 0 "http://x" "firefox"
        20).st.end_time = some 3 := by
  decide

/-- C4 (amended): in perform_test only a WebDriverException carrying
exactly the malformed-URL message is recorded as a TestError with the
browser closed and the partial result returned early; any other
navigation failure is swallowed and the run continues as if the load had
succeeded.  browser_client_common.load_url, in contrast, records every
navigation failure and returns False. -/
theorem C4_load_error_handling (env : DriverEnv) (st : ResultValues)
    (clock : Nat) (url url2 : String) (timeout_time : Nat) (m : String)
    (errs : List BccTestError) :
    (env.loadExc = some malformedUrlMsg →
      (perform_test env st clock url "firefox" timeout_time).result =
        Except.ok (NdtResult.ofValues
          { st with errors := st.errors ++ [⟨clock, malformedUrlMsg⟩] }) ∧
      (perform_test env st clock url "firefox" timeout_time).closed = true) ∧
    (env.loadExc = some m → m ≠ malformedUrlMsg →
      perform_test env st clock url "firefox" timeout_time =
        performAfterLoad env st clock [Event.evGetUrl]) ∧
    load_url (some m) url2 errs =
      (false, errs ++ [⟨ERROR_FAILED_TO_LOAD_URL_FORMAT url2⟩]) ∧
    load_url none url2 errs = (true, errs) := by
  refine ⟨?_, ?_, rfl, rfl⟩
  · intro h
    simp [perform_test, set_test_browser, h]
  · intro h hne
    simp [perform_test, set_test_browser, h, hne]

/-- Witness for C4: the malformed-URL and swallowed-message environments
and concrete load_url calls. -/
theorem C4_load_error_handling_witness :
    ((perform_test envMalformedUrl initResultValues 0 "http://x" "firefox"
          20).result =
        Except.ok (NdtResult.ofValues
          { initResultValues with
            errors := initResultValues.errors ++ [⟨0, malformedUrlMsg⟩] }) ∧
      (perform_test envMalformedUrl initResultValues 0 "http://x" "firefox"
          20).closed = true) ∧
    perform_test envOtherLoadError initResultValues 0 "http://x" "firefox" 20 =
      performAfterLoad envOtherLoadError initResultValues 0 [Event.evGetUrl] ∧
    load_url (some "boom") "http://y" [⟨"prior"⟩] =
      (false, [⟨"prior"⟩] ++ [⟨ERROR_FAILED_TO_LOAD_URL_FORMAT "http://y"⟩]) ∧
    load_url none "http://y" [⟨"prior"⟩] = (true, [⟨"prior"⟩]) :=
  ⟨(C4_load_error_handling envMalformedUrl initResultValues 0 "http://x"
      "http://y" 20 "boom" [⟨"prior"⟩]).1 rfl,
   (C4_load_error_handling envOtherLoadError initResultValues 0 "http://x"
      "http://y" 20 "Connection refused" [⟨"prior"⟩]).2.1 rfl (by decide),
   (C4_load_error_handling envMalformedUrl initResultValues 0 "http://x"
      "http://y" 20 "boom" [⟨"prior"⟩]).2.2.1,
   (C4_load_error_handling envMalformedUrl initResultValues 0 "http://x"
      "http://y" 20 "boom" [⟨"prior"⟩]).2.2.2⟩

/-- C6: within record_test_in_progress_values, phase observations are
strictly ordered — the download wait occurs only after c2s_start_time is
recorded and the results wait only after s2c_start_time is recorded —
each of the three timestamps is recorded at most once (exactly once when
no wait times out), and once all are set they are in non-decreasing
chronological order. -/
theorem C6_phase_ordering (env : DriverEnv) (st : ResultValues) (clock : Nat) :
    phaseWaitsOrdered false false
        (record_test_in_progress_values env st clock).trace = true ∧
    ((record_test_in_progress_values env st clock).trace.filter
        isSetC2s).length ≤ 1 ∧
    ((record_test_in_progress_values env st clock).trace.filter
        isSetS2c).length ≤ 1 ∧
    ((record_test_in_progress_values env st clock).trace.filter
        isSetEnd).length ≤ 1 ∧
    ((record_test_in_progress_values env st clock).exc = none →
      ((record_test_in_progress_values env st clock).trace.filter
          isSetC2s).length = 1 ∧
      ((record_test_in_progress_values env st clock).trace.filter
          isSetS2c).length = 1 ∧
      ((record_test_in_progress_values env st clock).trace.filter
          isSetEnd).length = 1 ∧
      ∃ t1 t2 t3,
        (record_test_in_progress_values env st clock).st.c2s_start_time =
          some t1 ∧
        (record_test_in_progress_values env st clock).st.s2c_start_time =
          some t2 ∧
        (record_test_in_progress_values env st clock).st.end_time = some t3 ∧
        t1 ≤ t2 ∧ t2 ≤ t3) := by
  obtain ⟨le, ws, sb, utf, uv, dtf, dv, rtf, rv, usf, dsf, lef, ct, s2t, lt⟩ := env
  cases utf <;> cases uv <;> cases dtf <;> cases dv <;> cases rtf <;> cases rv <;>
    simp [record_test_in_progress_values, phaseWaitsOrdered,
      isSetC2s, isSetS2c, isSetEnd]

/-- Witness for C6: the all-good environment; every wait completes, so
all three timestamps are recorded exactly once and in order. -/
theorem C6_phase_ordering_witness :
    ((record_test_in_progress_values envAllGood initResultValues 0).trace.filter
        isSetC2s).length = 1 ∧
    ((record_test_in_progress_values envAllGood initResultValues 0).trace.filter
        isSetS2c).length = 1 ∧
    ((record_test_in_progress_values envAllGood initResultValues 0).trace.filter
        isSetEnd).length = 1 ∧
    ∃ t1 t2 t3,
      (record_test_in_progress_values envAllGood initResultValues
          0).st.c2s_start_time = some t1 ∧
      (record_test_in_progress_values envAllGood initResultValues
          0).st.s2c_start_time = some t2 ∧
      (record_test_in_progress_values envAllGood initResultValues
          0).st.end_time = some t3 ∧
      t1 ≤ t2 ∧ t2 ≤ t3 :=
  (C6_phase_ordering envAllGood initResultValues 0).2.2.2.2 rfl

/-- C7: perform_test closes the browser exactly on the paths on which it
returns an NdtResult — success, phase-wait timeout, and the recognised
URL load error — so whenever a result is returned the browser has been
closed first. -/
theorem C7_browser_closed_on_return (env : DriverEnv) (st : ResultValues)
    (clock : Nat) (url browser : String) (timeout_time : Nat) :
    (perform_test env st clock url browser timeout_time).closed =
      isOkResult (perform_test env st clock url browser timeout_time).result := by
  simp only [perform_test]
  repeat' split
  all_goals first | rfl | apply performAfterLoad_closed_eq

/-- C9: every operation of a run — perform_test as a whole, metric
validation, and the individual helpers — only ever appends to the errors
list; entries already recorded are never removed or replaced. -/
theorem C9_errors_append_only (env : DriverEnv) (st : ResultValues)
    (clock : Nat) (url browser : String) (timeout_time : Nat) (m : Metric) :
    (∃ tl, (perform_test env st clock url browser timeout_time).st.errors =
      st.errors ++ tl) ∧
    (∃ tl, (check_result_metrics st clock).st.errors = st.errors ++ tl) ∧
    (∃ tl, (test_indiv_metric_is_valid m st clock).st.errors =
      st.errors ++ tl) ∧
    (record_test_in_progress_values env st clock).st.errors = st.errors ∧
    (populate_metric_values env st clock).st.errors = st.errors := by
  refine ⟨?_, check_errors_extend st clock, indiv_errors_extend m st clock,
    record_errors_eq env st clock, populate_errors_eq env st clock⟩
  simp only [perform_test]
  split
  · exact ⟨[], (List.append_nil _).symm⟩
  · split
    · split
      · exact ⟨_, rfl⟩
      · exact performAfterLoad_errors_extend env st clock _
    · exact performAfterLoad_errors_extend env st clock _
